import Mathlib

/-!
Verification of the Winscope table-schema registry
(`src/trace_processor/tables/winscope_tables.py`) and of the columnar
storage engine its specification describes.

The repository artifact is a declarative list of table schemas.  We embed
the schema data faithfully from the source file.  The schema compiler and
the columnar storage engine it generates are not part of the repository
snapshot; following the specification, their operations (`AppendRow`,
`Set`, `Finalize`, `CanWrite`, `Resolve`, schema validation) are modelled
from the spec and marked as such in their doc comments.

Table documentation VALUES (free-text strings) are omitted from the
embedding; the documentation KEYS are kept, because the schema contains
one empty-string key that the claims mention.
-/

namespace WinscopeTables

/-- Column flag, from the source import `ColumnFlag` (either no flag or
`ColumnFlag.SORTED`). -/
inductive ColumnFlag
  | NONE
  | SORTED
deriving DecidableEq

/-- Access tier of a column, from the source import `CppAccess`. -/
inductive CppAccess
  | READ
  | READ_AND_LOW_PERF_WRITE
deriving DecidableEq

/-- Access duration of a column, from the source import
`CppAccessDuration`: writes allowed at any time, or only after
finalization. -/
inductive CppAccessDuration
  | ANY_TIME
  | POST_FINALIZATION
deriving DecidableEq

/-- Logical column type, from the source imports `CppInt64`, `CppUint32`,
`CppString`, `CppOptional`, `CppTableId`.  A `cppTableId` carries the
`sql_name` of the referenced table. -/
inductive CppType
  | cppInt64
  | cppUint32
  | cppString
  | cppOptional (t : CppType)
  | cppTableId (target : String)
deriving DecidableEq

/-- Column schema, from the source constructor `C(name, type, flags,
cpp_access=..., cpp_access_duration=...)`.  Defaults in the source are
`ColumnFlag.NONE`, read-only access and any-time duration. -/
structure Column where
  name : String
  type : CppType
  flags : ColumnFlag
  cpp_access : CppAccess
  cpp_access_duration : CppAccessDuration
deriving DecidableEq

/-- Table schema, from the source constructor `Table(...)`.
`docKeys` are the keys of the `columns` mapping of the `TableDoc`
(documentation values are free text and are not part of any claim). -/
structure TableSchema where
  class_name : String
  sql_name : String
  columns : List Column
  docKeys : List String
  wrapping_sql_view : Option String
deriving DecidableEq

open CppType CppAccess CppAccessDuration ColumnFlag

/-- Shorthand for a sorted int64 timestamp column with default access,
`C(name, CppInt64(), ColumnFlag.SORTED)` in the source. -/
def tsSortedCol (nm : String) : Column :=
  ⟨nm, cppInt64, SORTED, READ, ANY_TIME⟩

/-- Shorthand for the recurring
`C(name, CppOptional(CppUint32()), cpp_access=READ_AND_LOW_PERF_WRITE)`
column of the source. -/
def optU32RWCol (nm : String) : Column :=
  ⟨nm, cppOptional cppUint32, NONE, READ_AND_LOW_PERF_WRITE, ANY_TIME⟩

/-- Shorthand for the recurring
`C(name, CppOptional(CppUint32()), cpp_access=READ_AND_LOW_PERF_WRITE,
cpp_access_duration=POST_FINALIZATION)` column of the source. -/
def optU32RWPostCol (nm : String) : Column :=
  ⟨nm, cppOptional cppUint32, NONE, READ_AND_LOW_PERF_WRITE, POST_FINALIZATION⟩

/-- `INPUTMETHOD_CLIENTS_TABLE` of the source. -/
def INPUTMETHOD_CLIENTS_TABLE : TableSchema :=
  { class_name := "InputMethodClientsTable"
    sql_name := "__intrinsic_inputmethod_clients"
    columns :=
      [ tsSortedCol "ts"
      , optU32RWCol "arg_set_id"
      , optU32RWPostCol "base64_proto_id" ]
    docKeys := ["ts", "arg_set_id", "base64_proto_id"]
    wrapping_sql_view := none }

/-- `INPUTMETHOD_MANAGER_SERVICE_TABLE` of the source. -/
def INPUTMETHOD_MANAGER_SERVICE_TABLE : TableSchema :=
  { class_name := "InputMethodManagerServiceTable"
    sql_name := "__intrinsic_inputmethod_manager_service"
    columns :=
      [ tsSortedCol "ts"
      , optU32RWCol "arg_set_id"
      , optU32RWPostCol "base64_proto_id" ]
    docKeys := ["ts", "arg_set_id", "base64_proto_id"]
    wrapping_sql_view := none }

/-- `INPUTMETHOD_SERVICE_TABLE` of the source. -/
def INPUTMETHOD_SERVICE_TABLE : TableSchema :=
  { class_name := "InputMethodServiceTable"
    sql_name := "__intrinsic_inputmethod_service"
    columns :=
      [ tsSortedCol "ts"
      , optU32RWCol "arg_set_id"
      , optU32RWPostCol "base64_proto_id" ]
    docKeys := ["ts", "arg_set_id", "base64_proto_id"]
    wrapping_sql_view := none }

/-- `SURFACE_FLINGER_LAYERS_SNAPSHOT_TABLE` of the source. -/
def SURFACE_FLINGER_LAYERS_SNAPSHOT_TABLE : TableSchema :=
  { class_name := "SurfaceFlingerLayersSnapshotTable"
    sql_name := "surfaceflinger_layers_snapshot"
    columns :=
      [ tsSortedCol "ts"
      , optU32RWCol "arg_set_id"
      , optU32RWPostCol "base64_proto_id" ]
    docKeys := ["ts", "arg_set_id", "base64_proto_id"]
    wrapping_sql_view := none }

/-- `SURFACE_FLINGER_LAYER_TABLE` of the source; `snapshot_id` is
`C('snapshot_id', CppTableId(SURFACE_FLINGER_LAYERS_SNAPSHOT_TABLE))`. -/
def SURFACE_FLINGER_LAYER_TABLE : TableSchema :=
  { class_name := "SurfaceFlingerLayerTable"
    sql_name := "surfaceflinger_layer"
    columns :=
      [ ⟨"snapshot_id", cppTableId "surfaceflinger_layers_snapshot", NONE, READ, ANY_TIME⟩
      , optU32RWCol "arg_set_id"
      , optU32RWPostCol "base64_proto_id" ]
    docKeys := ["snapshot_id", "arg_set_id", "base64_proto_id"]
    wrapping_sql_view := none }

/-- `SURFACE_FLINGER_TRANSACTIONS_TABLE` of the source. -/
def SURFACE_FLINGER_TRANSACTIONS_TABLE : TableSchema :=
  { class_name := "SurfaceFlingerTransactionsTable"
    sql_name := "surfaceflinger_transactions"
    columns :=
      [ tsSortedCol "ts"
      , optU32RWCol "arg_set_id"
      , optU32RWPostCol "base64_proto_id"
      , ⟨"vsync_id", cppOptional cppInt64, NONE, READ, ANY_TIME⟩ ]
    docKeys := ["ts", "arg_set_id", "base64_proto_id", "vsync_id"]
    wrapping_sql_view := none }

/-- `SURFACE_FLINGER_TRANSACTION_TABLE` of the source. -/
def SURFACE_FLINGER_TRANSACTION_TABLE : TableSchema :=
  { class_name := "SurfaceFlingerTransactionTable"
    sql_name := "__intrinsic_surfaceflinger_transaction"
    columns :=
      [ ⟨"snapshot_id", cppTableId "surfaceflinger_transactions", NONE, READ, ANY_TIME⟩
      , optU32RWCol "arg_set_id"
      , optU32RWPostCol "base64_proto_id"
      , ⟨"transaction_id", cppOptional cppInt64, NONE, READ, ANY_TIME⟩
      , ⟨"pid", cppOptional cppUint32, NONE, READ, ANY_TIME⟩
      , ⟨"uid", cppOptional cppUint32, NONE, READ, ANY_TIME⟩
      , ⟨"layer_id", cppOptional cppUint32, NONE, READ, ANY_TIME⟩
      , ⟨"display_id", cppOptional cppUint32, NONE, READ, ANY_TIME⟩
      , ⟨"flags_id", cppOptional cppUint32, NONE, READ, ANY_TIME⟩
      , ⟨"transaction_type", cppOptional cppString, NONE, READ, ANY_TIME⟩ ]
    docKeys :=
      [ "snapshot_id", "arg_set_id", "base64_proto_id", "transaction_id"
      , "pid", "uid", "layer_id", "display_id", "flags_id", "transaction_type" ]
    wrapping_sql_view := none }

/-- `SURFACE_FLINGER_TRANSACTION_FLAG_TABLE` of the source. -/
def SURFACE_FLINGER_TRANSACTION_FLAG_TABLE : TableSchema :=
  { class_name := "SurfaceFlingerTransactionFlagTable"
    sql_name := "__intrinsic_surfaceflinger_transaction_flag"
    columns :=
      [ ⟨"flags_id", cppOptional cppUint32, NONE, READ, ANY_TIME⟩
      , ⟨"flag", cppOptional cppString, NONE, READ, ANY_TIME⟩ ]
    docKeys := ["flags_id", "flag"]
    wrapping_sql_view := none }

/-- `VIEWCAPTURE_TABLE` of the source. -/
def VIEWCAPTURE_TABLE : TableSchema :=
  { class_name := "ViewCaptureTable"
    sql_name := "__intrinsic_viewcapture"
    columns :=
      [ tsSortedCol "ts"
      , optU32RWCol "arg_set_id"
      , optU32RWPostCol "base64_proto_id" ]
    docKeys := ["ts", "arg_set_id", "base64_proto_id"]
    wrapping_sql_view := none }

/-- `VIEWCAPTURE_VIEW_TABLE` of the source.  Note the empty-string
documentation key in its `TableDoc`, exactly as in the source. -/
def VIEWCAPTURE_VIEW_TABLE : TableSchema :=
  { class_name := "ViewCaptureViewTable"
    sql_name := "__intrinsic_viewcapture_view"
    columns :=
      [ ⟨"snapshot_id", cppTableId "__intrinsic_viewcapture", NONE, READ, ANY_TIME⟩
      , optU32RWCol "arg_set_id"
      , optU32RWPostCol "base64_proto_id" ]
    docKeys := ["snapshot_id", "arg_set_id", ""]
    wrapping_sql_view := none }

/-- `VIEWCAPTURE_INTERNED_DATA_TABLE` of the source: a required-uint32
post-finalization writable column plus three read-only columns. -/
def VIEWCAPTURE_INTERNED_DATA_TABLE : TableSchema :=
  { class_name := "ViewCaptureInternedDataTable"
    sql_name := "__intrinsic_viewcapture_interned_data"
    columns :=
      [ ⟨"base64_proto_id", cppUint32, NONE, READ_AND_LOW_PERF_WRITE, POST_FINALIZATION⟩
      , ⟨"flat_key", cppString, NONE, READ, ANY_TIME⟩
      , ⟨"iid", cppInt64, NONE, READ, ANY_TIME⟩
      , ⟨"deinterned_value", cppString, NONE, READ, ANY_TIME⟩ ]
    docKeys := ["base64_proto_id", "flat_key", "iid", "deinterned_value"]
    wrapping_sql_view := none }

/-- `WINDOW_MANAGER_SHELL_TRANSITIONS_TABLE` of the source: `ts` is
read-and-low-perf-write and NOT sorted; `transition_id` is sorted with
default (read-only) access. -/
def WINDOW_MANAGER_SHELL_TRANSITIONS_TABLE : TableSchema :=
  { class_name := "WindowManagerShellTransitionsTable"
    sql_name := "window_manager_shell_transitions"
    columns :=
      [ ⟨"ts", cppInt64, NONE, READ_AND_LOW_PERF_WRITE, ANY_TIME⟩
      , ⟨"transition_id", cppInt64, SORTED, READ, ANY_TIME⟩
      , optU32RWCol "arg_set_id"
      , ⟨"transition_type", cppOptional cppUint32, NONE, READ_AND_LOW_PERF_WRITE, ANY_TIME⟩
      , ⟨"send_time_ns", cppOptional cppInt64, NONE, READ_AND_LOW_PERF_WRITE, ANY_TIME⟩
      , ⟨"dispatch_time_ns", cppOptional cppInt64, NONE, READ_AND_LOW_PERF_WRITE, ANY_TIME⟩
      , ⟨"duration_ns", cppOptional cppInt64, NONE, READ_AND_LOW_PERF_WRITE, ANY_TIME⟩
      , ⟨"handler", cppOptional cppInt64, NONE, READ_AND_LOW_PERF_WRITE, ANY_TIME⟩
      , ⟨"status", cppOptional cppString, NONE, READ_AND_LOW_PERF_WRITE, ANY_TIME⟩
      , ⟨"flags", cppOptional cppUint32, NONE, READ_AND_LOW_PERF_WRITE, ANY_TIME⟩ ]
    docKeys :=
      [ "ts", "transition_id", "arg_set_id", "transition_type", "send_time_ns"
      , "dispatch_time_ns", "duration_ns", "handler", "status", "flags" ]
    wrapping_sql_view := none }

/-- `WINDOW_MANAGER_SHELL_TRANSITION_HANDLERS_TABLE` of the source. -/
def WINDOW_MANAGER_SHELL_TRANSITION_HANDLERS_TABLE : TableSchema :=
  { class_name := "WindowManagerShellTransitionHandlersTable"
    sql_name := "window_manager_shell_transition_handlers"
    columns :=
      [ ⟨"handler_id", cppInt64, NONE, READ, ANY_TIME⟩
      , ⟨"handler_name", cppString, NONE, READ, ANY_TIME⟩
      , optU32RWPostCol "base64_proto_id" ]
    docKeys := ["handler_id", "handler_name", "base64_proto_id"]
    wrapping_sql_view := none }

/-- `WINDOW_MANAGER_SHELL_TRANSITION_PARTICIPANTS_TABLE` of the source. -/
def WINDOW_MANAGER_SHELL_TRANSITION_PARTICIPANTS_TABLE : TableSchema :=
  { class_name := "WindowManagerShellTransitionParticipantsTable"
    sql_name := "__intrinsic_window_manager_shell_transition_participants"
    columns :=
      [ ⟨"transition_id", cppInt64, NONE, READ, ANY_TIME⟩
      , ⟨"layer_id", cppOptional cppUint32, NONE, READ, ANY_TIME⟩
      , ⟨"window_id", cppOptional cppUint32, NONE, READ, ANY_TIME⟩ ]
    docKeys := ["transition_id", "layer_id", "window_id"]
    wrapping_sql_view := none }

/-- `WINDOW_MANAGER_SHELL_TRANSITION_PROTOS_TABLE` of the source: both
columns are read-and-low-perf-write with post-finalization duration. -/
def WINDOW_MANAGER_SHELL_TRANSITION_PROTOS_TABLE : TableSchema :=
  { class_name := "WindowManagerShellTransitionProtosTable"
    sql_name := "__intrinsic_window_manager_shell_transition_protos"
    columns :=
      [ ⟨"transition_id", cppInt64, NONE, READ_AND_LOW_PERF_WRITE, POST_FINALIZATION⟩
      , optU32RWPostCol "base64_proto_id" ]
    docKeys := ["transition_id", "base64_proto_id"]
    wrapping_sql_view := none }

/-- `WINDOW_MANAGER_TABLE` of the source; the only table with a
`WrappingSqlView`. -/
def WINDOW_MANAGER_TABLE : TableSchema :=
  { class_name := "WindowManagerTable"
    sql_name := "__intrinsic_windowmanager"
    columns :=
      [ tsSortedCol "ts"
      , optU32RWCol "arg_set_id"
      , optU32RWPostCol "base64_proto_id" ]
    docKeys := ["ts", "arg_set_id", "base64_proto_id"]
    wrapping_sql_view := some "windowmanager" }

/-- `PROTOLOG_TABLE` of the source; its `ts` column is both sorted and
read-and-low-perf-write. -/
def PROTOLOG_TABLE : TableSchema :=
  { class_name := "ProtoLogTable"
    sql_name := "protolog"
    columns :=
      [ ⟨"ts", cppInt64, SORTED, READ_AND_LOW_PERF_WRITE, ANY_TIME⟩
      , ⟨"level", cppString, NONE, READ_AND_LOW_PERF_WRITE, ANY_TIME⟩
      , ⟨"tag", cppString, NONE, READ_AND_LOW_PERF_WRITE, ANY_TIME⟩
      , ⟨"message", cppString, NONE, READ_AND_LOW_PERF_WRITE, ANY_TIME⟩
      , ⟨"stacktrace", cppString, NONE, READ_AND_LOW_PERF_WRITE, ANY_TIME⟩
      , ⟨"location", cppString, NONE, READ_AND_LOW_PERF_WRITE, ANY_TIME⟩ ]
    docKeys := ["ts", "level", "tag", "message", "stacktrace", "location"]
    wrapping_sql_view := none }

/-- `ALL_TABLES` of the source, in its order (protolog first). -/
def ALL_TABLES : List TableSchema :=
  [ PROTOLOG_TABLE
  , INPUTMETHOD_CLIENTS_TABLE
  , INPUTMETHOD_MANAGER_SERVICE_TABLE
  , INPUTMETHOD_SERVICE_TABLE
  , SURFACE_FLINGER_LAYERS_SNAPSHOT_TABLE
  , SURFACE_FLINGER_LAYER_TABLE
  , SURFACE_FLINGER_TRANSACTIONS_TABLE
  , SURFACE_FLINGER_TRANSACTION_TABLE
  , SURFACE_FLINGER_TRANSACTION_FLAG_TABLE
  , VIEWCAPTURE_TABLE
  , VIEWCAPTURE_VIEW_TABLE
  , VIEWCAPTURE_INTERNED_DATA_TABLE
  , WINDOW_MANAGER_SHELL_TRANSITIONS_TABLE
  , WINDOW_MANAGER_SHELL_TRANSITION_HANDLERS_TABLE
  , WINDOW_MANAGER_SHELL_TRANSITION_PARTICIPANTS_TABLE
  , WINDOW_MANAGER_SHELL_TRANSITION_PROTOS_TABLE
  , WINDOW_MANAGER_TABLE ]

/-- The seventeen tables in the order of their definitions in the source
module (textual order of the Python file), which differs from the order
of `ALL_TABLES`. -/
def MODULE_TABLES : List TableSchema :=
  [ INPUTMETHOD_CLIENTS_TABLE
  , INPUTMETHOD_MANAGER_SERVICE_TABLE
  , INPUTMETHOD_SERVICE_TABLE
  , SURFACE_FLINGER_LAYERS_SNAPSHOT_TABLE
  , SURFACE_FLINGER_LAYER_TABLE
  , SURFACE_FLINGER_TRANSACTIONS_TABLE
  , SURFACE_FLINGER_TRANSACTION_TABLE
  , SURFACE_FLINGER_TRANSACTION_FLAG_TABLE
  , VIEWCAPTURE_TABLE
  , VIEWCAPTURE_VIEW_TABLE
  , VIEWCAPTURE_INTERNED_DATA_TABLE
  , WINDOW_MANAGER_SHELL_TRANSITIONS_TABLE
  , WINDOW_MANAGER_SHELL_TRANSITION_HANDLERS_TABLE
  , WINDOW_MANAGER_SHELL_TRANSITION_PARTICIPANTS_TABLE
  , WINDOW_MANAGER_SHELL_TRANSITION_PROTOS_TABLE
  , WINDOW_MANAGER_TABLE
  , PROTOLOG_TABLE ]

/-- Modelled from the spec: runtime cell values held by a Column Store --
signed integers, unsigned integers, strings, an explicit null for
optional columns, and row-index references for table-id columns. -/
inductive Value
  | vInt (i : Int)
  | vUint (n : Nat)
  | vStr (s : String)
  | vNull
  | vRef (n : Nat)
deriving DecidableEq

/-- Modelled from the spec: table lifecycle phase, `Open` (append-only)
until `Finalize()`, then `Closed`. -/
inductive Phase
  | Open
  | Closed
deriving DecidableEq

/-- Modelled from the spec (section 7): the error kinds of the storage
engine.  `sortViolation` is the error for an out-of-order append to a
SORTED column, `missingColumn` for an `AppendRow` that does not supply
one value per declared column. -/
inductive TableError
  | typeMismatch
  | outOfRange
  | accessDenied
  | danglingReference
  | sortViolation
  | missingColumn
  | unknownTable
deriving DecidableEq

/-- Modelled from the spec: whether a runtime value fits a column's
declared logical type.  Machine bounds are explicit: int64 values lie in
the signed 64-bit range, uint32 values below 2 ^ 32.  A null fits exactly
the optional types. -/
def typeOk : CppType → Value → Bool
  | CppType.cppInt64, Value.vInt i => decide (-(2 ^ 63) ≤ i) && decide (i < 2 ^ 63)
  | CppType.cppUint32, Value.vUint n => decide (n < 2 ^ 32)
  | CppType.cppString, Value.vStr _ => true
  | CppType.cppOptional _, Value.vNull => true
  | CppType.cppOptional t, v => typeOk t v
  | CppType.cppTableId _, Value.vRef _ => true
  | _, _ => false

/-- Modelled from the spec: the order on values used by SORTED columns.
Only numerically comparable values of the same kind are ordered. -/
def valueLe : Value → Value → Bool
  | Value.vInt a, Value.vInt b => decide (a ≤ b)
  | Value.vUint a, Value.vUint b => decide (a ≤ b)
  | _, _ => false

/-- Modelled from the spec (section 4.3): the pure access decision table.
Read-only columns are never writable; read-and-low-perf-write columns
with any-time duration are always writable; with post-finalization
duration they are writable only in the `Closed` phase. -/
def canWrite (c : Column) (ph : Phase) : Bool :=
  match c.cpp_access, c.cpp_access_duration with
  | CppAccess.READ, _ => false
  | CppAccess.READ_AND_LOW_PERF_WRITE, CppAccessDuration.ANY_TIME => true
  | CppAccess.READ_AND_LOW_PERF_WRITE, CppAccessDuration.POST_FINALIZATION =>
      decide (ph = Phase.Closed)

/-- Modelled from the spec: the target of a table-id type, if any. -/
def refTarget : CppType → Option String
  | CppType.cppTableId tgt => some tgt
  | CppType.cppOptional t => refTarget t
  | _ => none

/-- Modelled from the spec: a non-null table-id value must be a row index
strictly below the current row count of the target table; `env` maps a
target table's `sql_name` to its current row count. -/
def refOk (env : String → Nat) : CppType → Value → Bool
  | CppType.cppTableId tgt, Value.vRef n => decide (n < env tgt)
  | CppType.cppOptional _, Value.vNull => true
  | CppType.cppOptional t, v => refOk env t v
  | _, _ => true

/-- Modelled from the spec: a SORTED column accepts a new value only when
it is not below the column's current last value. -/
def sortOk (c : Column) (store : List Value) (v : Value) : Bool :=
  match c.flags with
  | ColumnFlag.SORTED =>
      match store.getLast? with
      | some last => valueLe last v
      | none => true
  | ColumnFlag.NONE => true

/-- Modelled from the spec (section 4.2): per-column validation performed
by `AppendRow` before any store is touched: type check first, then the
sortedness check, then the reference-bounds check. -/
def validateCol (env : String → Nat) (c : Column) (store : List Value) (v : Value) :
    Option TableError :=
  if typeOk c.type v then
    if sortOk c store v then
      if refOk env c.type v then none
      else some TableError.danglingReference
    else some TableError.sortViolation
  else some TableError.typeMismatch

/-- Modelled from the spec: validation of a whole row, one value per
declared column, in column order; the first failing column's error is
returned, and an arity mismatch is `missingColumn`. -/
def validateRow (env : String → Nat) :
    List Column → List (List Value) → List Value → Option TableError
  | [], [], [] => none
  | c :: cs, st :: sts, v :: vs =>
      match validateCol env c st v with
      | some e => some e
      | none => validateRow env cs sts vs
  | _, _, _ => some TableError.missingColumn

/-- Modelled from the spec: commit phase of `AppendRow` -- append one
value to each column store in lockstep (only reached after validation). -/
def commitRow : List (List Value) → List Value → List (List Value)
  | st :: sts, v :: vs => (st ++ [v]) :: commitRow sts vs
  | sts, [] => sts
  | [], _ :: _ => []

/-- Modelled from the spec: a Row Table instance -- its schema, one
column store per declared column, and its lifecycle phase. -/
structure TableState where
  schema : TableSchema
  stores : List (List Value)
  phase : Phase
deriving DecidableEq

/-- Modelled from the spec: `RowCount()` -- the shared length of the
column stores (the first store's length). -/
def rowCount (s : TableState) : Nat :=
  match s.stores with
  | [] => 0
  | st :: _ => st.length

/-- The equal-length invariant of a Row Table: every column store has the
shared length `rowCount`. -/
def equalLengths (s : TableState) : Prop :=
  ∀ st ∈ s.stores, st.length = rowCount s

instance (s : TableState) : Decidable (equalLengths s) := by
  unfold equalLengths; infer_instance

/-- Modelled from the spec (section 4.2): `AppendRow` -- fails when the
table is `Closed`; otherwise validates every value against its column
before appending any, and only on full success appends one value to every
store.  On failure the result carries no state: the caller's state is
untouched. -/
def appendRow (env : String → Nat) (s : TableState) (vals : List Value) :
    Except TableError TableState :=
  if s.phase = Phase.Closed then Except.error TableError.accessDenied
  else
    match validateRow env s.schema.columns s.stores vals with
    | some e => Except.error e
    | none => Except.ok { s with stores := commitRow s.stores vals }

/-- Modelled from the spec (section 4.1): single-column `Append` of the
Column Store -- fails with `TypeMismatch` when the value does not fit the
declared logical type. -/
def storeAppend (c : Column) (store : List Value) (v : Value) :
    Except TableError (List Value) :=
  if typeOk c.type v then Except.ok (store ++ [v])
  else Except.error TableError.typeMismatch

/-- Modelled from the spec (section 4.1): `Set(row_index, value)` -- the
access tier and phase are enforced first (`AccessDenied`), then the row
bound (`OutOfRange`), then the type (`TypeMismatch`); on success exactly
one cell of one store changes. -/
def setCell (s : TableState) (colIdx rowIdx : Nat) (v : Value) :
    Except TableError TableState :=
  match s.schema.columns[colIdx]?, s.stores[colIdx]? with
  | some c, some st =>
      if canWrite c s.phase then
        if rowIdx < st.length then
          if typeOk c.type v then
            Except.ok { s with stores := s.stores.set colIdx (st.set rowIdx v) }
          else Except.error TableError.typeMismatch
        else Except.error TableError.outOfRange
      else Except.error TableError.accessDenied
  | _, _ => Except.error TableError.outOfRange

/-- Modelled from the spec (section 4.2): `Finalize()` -- the total
transition to the `Closed` phase; repeated calls are no-ops. -/
def finalize (s : TableState) : TableState :=
  { s with phase := Phase.Closed }

/-- Modelled from the spec (section 4.4): `Resolve(column, row_index)` --
dereference a row index through a table-id column, failing with
`DanglingReference` when the index is out of the target table's current
bounds (`env` gives the target's row count). -/
def resolve (env : String → Nat) (c : Column) (idx : Nat) :
    Except TableError Nat :=
  match c.type with
  | CppType.cppTableId tgt =>
      if idx < env tgt then Except.ok idx
      else Except.error TableError.danglingReference
  | _ => Except.error TableError.typeMismatch

/-- Modelled from the spec (section 4.5): a SORTED flag is valid only on
a column whose type carries a total order (non-optional numeric types). -/
def sortableType : CppType → Bool
  | CppType.cppInt64 => true
  | CppType.cppUint32 => true
  | _ => false

/-- Modelled from the spec (section 4.5): per-table check of the schema
compiler -- column names unique within the table, every table-id target
present in the full batch (`names`), SORTED only on totally ordered
numeric types.  Documentation keys are not consulted. -/
def tableOk (names : List String) (t : TableSchema) : Bool :=
  (t.columns.map Column.name).Nodup &&
  t.columns.all (fun c =>
    match refTarget c.type with
    | some tgt => names.contains tgt
    | none => true) &&
  t.columns.all (fun c =>
    match c.flags with
    | ColumnFlag.SORTED => sortableType c.type
    | ColumnFlag.NONE => true)

/-- Modelled from the spec (section 4.5): two-pass batch validation --
collect every table's `sql_name`, then check each table against the full
batch. -/
def validateSchema (ts : List TableSchema) : Bool :=
  ts.all (tableOk (ts.map TableSchema.sql_name))

/-- Checks that every table-id column of the batch targets a table
defined STRICTLY EARLIER in the list; `seen` accumulates the `sql_name`s
of the tables already passed. -/
def noForwardRefsAux (seen : List String) : List TableSchema → Bool
  | [] => true
  | t :: rest =>
      t.columns.all (fun c =>
        match refTarget c.type with
        | some tgt => seen.contains tgt
        | none => true) &&
      noForwardRefsAux (seen ++ [t.sql_name]) rest

/-- No table-id column references a table defined later in the batch. -/
def noForwardRefs (ts : List TableSchema) : Bool :=
  noForwardRefsAux [] ts

/-- All table-id targets occurring in a batch, in order of occurrence. -/
def refTargets (ts : List TableSchema) : List String :=
  (ts.map (fun t => t.columns.filterMap (fun c => refTarget c.type))).flatten

/-- Replace a table's documentation keys (used to state that the
documentation, including the empty-string key, has no effect on storage
behavior or validation). -/
def setDocs (t : TableSchema) (d : List String) : TableSchema :=
  { t with docKeys := d }

theorem validateRow_none_lengths (env : String → Nat) :
    ∀ (cs : List Column) (sts : List (List Value)) (vs : List Value),
      validateRow env cs sts vs = none →
      sts.length = cs.length ∧ vs.length = cs.length := by
  intro cs
  induction cs with
  | nil =>
      intro sts vs h
      cases sts with
      | nil => cases vs with
        | nil => exact ⟨rfl, rfl⟩
        | cons v vs => simp [validateRow] at h
      | cons st sts => simp [validateRow] at h
  | cons c cs ih =>
      intro sts vs h
      cases sts with
      | nil => simp [validateRow] at h
      | cons st sts =>
        cases vs with
        | nil => simp [validateRow] at h
        | cons v vs =>
          unfold validateRow at h
          cases hvc : validateCol env c st v with
          | some e => rw [hvc] at h; simp at h
          | none =>
              rw [hvc] at h
              simp only at h
              obtain ⟨h1, h2⟩ := ih sts vs h
              exact ⟨by simpa using h1, by simpa using h2⟩

theorem validateRow_none_col (env : String → Nat) :
    ∀ (cs : List Column) (sts : List (List Value)) (vs : List Value),
      validateRow env cs sts vs = none →
      ∀ (i : Nat) (c : Column) (st : List Value) (v : Value),
        cs[i]? = some c → sts[i]? = some st → vs[i]? = some v →
        validateCol env c st v = none := by
  intro cs
  induction cs with
  | nil =>
      intro sts vs _ i c st v hc _ _
      simp at hc
  | cons c0 cs ih =>
      intro sts vs h i c st v hc hst hv
      cases sts with
      | nil => simp [validateRow] at h
      | cons st0 sts =>
        cases vs with
        | nil => simp [validateRow] at h
        | cons v0 vs =>
          unfold validateRow at h
          cases hvc : validateCol env c0 st0 v0 with
          | some e => rw [hvc] at h; simp at h
          | none =>
              rw [hvc] at h
              simp only at h
              cases i with
              | zero =>
                  simp at hc hst hv
                  subst hc; subst hst; subst hv
                  exact hvc
              | succ i =>
                  simp at hc hst hv
                  exact ih sts vs h i c st v hc hst hv

theorem commitRow_getElem? :
    ∀ (sts : List (List Value)) (vs : List Value) (i : Nat)
      (st : List Value) (v : Value),
      sts[i]? = some st → vs[i]? = some v →
      (commitRow sts vs)[i]? = some (st ++ [v]) := by
  intro sts
  induction sts with
  | nil => intro vs i st v hst _; simp at hst
  | cons st0 sts ih =>
      intro vs i st v hst hv
      cases vs with
      | nil => simp at hv
      | cons v0 vs =>
        cases i with
        | zero =>
            simp at hst hv
            subst hst; subst hv
            simp [commitRow]
        | succ i =>
            simp at hst hv
            simpa [commitRow] using ih vs i st v hst hv

theorem commitRow_length :
    ∀ (sts : List (List Value)) (vs : List Value),
      sts.length = vs.length → (commitRow sts vs).length = sts.length := by
  intro sts
  induction sts with
  | nil => intro vs _; cases vs <;> simp [commitRow]
  | cons st0 sts ih =>
      intro vs h
      cases vs with
      | nil => simp at h
      | cons v0 vs =>
          simp [commitRow]
          exact ih vs (by simpa using h)

theorem commitRow_mem :
    ∀ (sts : List (List Value)) (vs : List Value),
      sts.length = vs.length →
      ∀ st' ∈ commitRow sts vs,
        ∃ (i : Nat) (st : List Value) (v : Value),
          sts[i]? = some st ∧ vs[i]? = some v ∧ st' = st ++ [v] := by
  intro sts vs hlen st' hmem
  obtain ⟨i, hi⟩ := List.mem_iff_getElem?.mp hmem
  have hilt : i < (commitRow sts vs).length := by
    by_contra hge
    rw [List.getElem?_eq_none (Nat.le_of_not_lt hge)] at hi
    cases hi
  rw [commitRow_length sts vs hlen] at hilt
  have hst : sts[i]? = some sts[i] := List.getElem?_eq_getElem hilt
  have hvlt : i < vs.length := hlen ▸ hilt
  have hv : vs[i]? = some vs[i] := List.getElem?_eq_getElem hvlt
  have := commitRow_getElem? sts vs i sts[i] vs[i] hst hv
  rw [this] at hi
  exact ⟨i, sts[i], vs[i], hst, hv, (Option.some_injective _ hi).symm⟩

theorem valueLe_trans {a b c : Value} (hab : valueLe a b = true)
    (hbc : valueLe b c = true) : valueLe a c = true := by
  cases a <;> cases b <;> simp [valueLe] at hab
  all_goals cases c <;> simp [valueLe] at hbc ⊢
  · exact le_trans hab hbc
  · exact le_trans hab hbc

theorem pairwise_append_last {st : List Value} {v : Value}
    (hp : st.Pairwise (fun a b => valueLe a b = true))
    (hl : ∀ l, st.getLast? = some l → valueLe l v = true) :
    (st ++ [v]).Pairwise (fun a b => valueLe a b = true) := by
  rcases List.eq_nil_or_concat st with hnil | ⟨st0, l, hcat⟩
  · subst hnil; simp
  · subst hcat
    rw [List.concat_eq_append] at hp hl ⊢
    have hlv : valueLe l v = true := hl l (by simp)
    rw [List.pairwise_append] at hp ⊢
    obtain ⟨hp0, _, hrel⟩ := hp
    refine ⟨List.pairwise_append.mpr ⟨hp0, by simp, ?_⟩, by simp, ?_⟩
    · intro a ha b hb
      simp at hb
      subst hb
      exact hrel a ha _ (List.mem_singleton.mpr rfl)
    · intro a ha b hb
      simp at hb
      subst hb
      simp at ha
      rcases ha with ha | ha
      · exact valueLe_trans (hrel a ha _ (List.mem_singleton.mpr rfl)) hlv
      · subst ha; exact hlv

theorem appendRow_ok_elim (env : String → Nat) (s : TableState)
    (vals : List Value) (s' : TableState)
    (h : appendRow env s vals = Except.ok s') :
    s.phase = Phase.Open ∧
    validateRow env s.schema.columns s.stores vals = none ∧
    s'.schema = s.schema ∧ s'.phase = s.phase ∧
    s'.stores = commitRow s.stores vals := by
  unfold appendRow at h
  by_cases hph : s.phase = Phase.Closed
  · rw [if_pos hph] at h; cases h
  · rw [if_neg hph] at h
    have hopen : s.phase = Phase.Open := by
      cases hp : s.phase
      · rfl
      · exact absurd hp hph
    cases hvr : validateRow env s.schema.columns s.stores vals with
    | some e => rw [hvr] at h; cases h
    | none =>
        rw [hvr] at h
        simp only at h
        cases h
        exact ⟨hopen, rfl, rfl, rfl, rfl⟩

theorem appendRow_error_of_col (env : String → Nat) (s : TableState)
    (vals : List Value) (i : Nat) (c : Column) (st : List Value) (v : Value)
    (hc : s.schema.columns[i]? = some c) (hst : s.stores[i]? = some st)
    (hv : vals[i]? = some v) (hbad : validateCol env c st v ≠ none) :
    ∃ e, appendRow env s vals = Except.error e := by
  unfold appendRow
  by_cases hph : s.phase = Phase.Closed
  · exact ⟨TableError.accessDenied, by rw [if_pos hph]⟩
  · rw [if_neg hph]
    cases hvr : validateRow env s.schema.columns s.stores vals with
    | some e => exact ⟨e, rfl⟩
    | none =>
        exact absurd (validateRow_none_col env s.schema.columns s.stores vals
          hvr i c st v hc hst hv) hbad

theorem validateCol_none_parts (env : String → Nat) (c : Column)
    (st : List Value) (v : Value) (h : validateCol env c st v = none) :
    typeOk c.type v = true ∧ sortOk c st v = true ∧ refOk env c.type v = true := by
  unfold validateCol at h
  by_cases h1 : typeOk c.type v
  · rw [if_pos h1] at h
    by_cases h2 : sortOk c st v
    · rw [if_pos h2] at h
      by_cases h3 : refOk env c.type v
      · exact ⟨h1, h2, h3⟩
      · rw [if_neg h3] at h; cases h
    · rw [if_neg h2] at h; cases h
  · rw [if_neg h1] at h; cases h

theorem sortOk_sorted_elim (c : Column) (st : List Value) (v : Value)
    (hc : c.flags = ColumnFlag.SORTED) (h : sortOk c st v = true) :
    ∀ l, st.getLast? = some l → valueLe l v = true := by
  intro l hl
  unfold sortOk at h
  rw [hc, hl] at h
  exact h

/-- The well-formedness of the sorted columns of a table: every store of
a `SORTED` column is pairwise non-decreasing for `valueLe`. -/
def tableSorted (s : TableState) : Prop :=
  ∀ (i : Nat) (c : Column) (st : List Value),
    s.schema.columns[i]? = some c → s.stores[i]? = some st →
    c.flags = ColumnFlag.SORTED →
    st.Pairwise (fun a b => valueLe a b = true)

/-- Claim C1: every Row Table keeps all of its column stores at equal
length at every observable point, and `AppendRow` is atomic across
columns: a successful append grows every store by exactly one, and if any
single column's value fails validation the whole call returns an error --
the `Except` result carries no partial state, so the caller's stores are
untouched. -/
theorem appendRow_atomic_equal_lengths (env : String → Nat) (s : TableState)
    (vals : List Value) (hwf : equalLengths s) :
    (∀ s', appendRow env s vals = Except.ok s' →
        equalLengths s' ∧ s'.stores.length = s.stores.length ∧
        ∀ st' ∈ s'.stores, st'.length = rowCount s + 1) ∧
    (∀ (i : Nat) (c : Column) (st : List Value) (v : Value),
        s.schema.columns[i]? = some c → s.stores[i]? = some st →
        vals[i]? = some v → validateCol env c st v ≠ none →
        ∃ e, appendRow env s vals = Except.error e) := by
  constructor
  · intro s' hok
    obtain ⟨_, hvr, _, _, hstores⟩ := appendRow_ok_elim env s vals s' hok
    obtain ⟨hlen1, hlen2⟩ := validateRow_none_lengths env _ _ _ hvr
    have hlen : s.stores.length = vals.length := hlen1.trans hlen2.symm
    have hmem : ∀ st' ∈ s'.stores, st'.length = rowCount s + 1 := by
      intro st' hm
      rw [hstores] at hm
      obtain ⟨i, st, v, hst, hv, heq⟩ := commitRow_mem _ _ hlen st' hm
      have hstm : st ∈ s.stores := List.mem_iff_getElem?.mpr ⟨i, hst⟩
      have hrc := hwf st hstm
      simp [heq, hrc]
    refine ⟨?_, ?_, hmem⟩
    · intro st' hm
      cases hs' : s'.stores with
      | nil => rw [hs'] at hm; cases hm
      | cons hd tl =>
          have hhd : hd.length = rowCount s + 1 :=
            hmem hd (by rw [hs']; exact List.mem_cons_self hd tl)
          have hst' : st'.length = rowCount s + 1 := hmem st' hm
          unfold rowCount
          rw [hs']
          show st'.length = hd.length
          rw [hhd, hst']
    · rw [hstores, commitRow_length _ _ hlen]
  · intro i c st v hc hst hv hbad
    exact appendRow_error_of_col env s vals i c st v hc hst hv hbad

/-- Concrete inputs for the witnesses: the empty input-method clients
table, open, with one store per column. -/
def imClients0 : TableState :=
  ⟨INPUTMETHOD_CLIENTS_TABLE, [[], [], []], Phase.Open⟩

/-- Concrete environment for the witnesses: every target table empty. -/
def envZero : String → Nat := fun _ => 0

/-- Concrete well-typed row for the input-method clients table. -/
def row5 : List Value := [Value.vInt 5, Value.vNull, Value.vNull]

/-- Witness for C1 at the concrete open input-method clients table. -/
theorem appendRow_atomic_equal_lengths_witness :
    equalLengths imClients0 ∧
    ((∀ s', appendRow envZero imClients0 row5 = Except.ok s' →
        equalLengths s' ∧ s'.stores.length = imClients0.stores.length ∧
        ∀ st' ∈ s'.stores, st'.length = rowCount imClients0 + 1) ∧
     (∀ (i : Nat) (c : Column) (st : List Value) (v : Value),
        imClients0.schema.columns[i]? = some c → imClients0.stores[i]? = some st →
        row5[i]? = some v → validateCol envZero c st v ≠ none →
        ∃ e, appendRow envZero imClients0 row5 = Except.error e)) :=
  ⟨by decide, appendRow_atomic_equal_lengths envZero imClients0 row5 (by decide)⟩

/-- Claim C2: for every `SORTED` column, at any reachable state the
stored values are non-decreasing in row order (`i < j` implies
`value(i) <= value(j)`); this invariant is preserved by `AppendRow`, and
an `AppendRow` whose value for a `SORTED` column is below the column's
current last value fails, returning an error that carries no state, so
the table (including its row count) is unchanged from before the call. -/
theorem sorted_column_invariant (env : String → Nat) (s : TableState)
    (vals : List Value) (hs : tableSorted s) :
    (∀ (i : Nat) (c : Column) (st : List Value),
        s.schema.columns[i]? = some c → s.stores[i]? = some st →
        c.flags = ColumnFlag.SORTED →
        ∀ (p q : Fin st.length), (p : Nat) < (q : Nat) →
          valueLe (st.get p) (st.get q) = true) ∧
    (∀ s', appendRow env s vals = Except.ok s' → tableSorted s') ∧
    (∀ (i : Nat) (c : Column) (st : List Value) (v : Value) (l : Value),
        s.schema.columns[i]? = some c → s.stores[i]? = some st →
        vals[i]? = some v → c.flags = ColumnFlag.SORTED →
        st.getLast? = some l → valueLe l v = false →
        ∃ e, appendRow env s vals = Except.error e) := by
  refine ⟨?_, ?_, ?_⟩
  · intro i c st hc hst hflag p q hpq
    exact List.pairwise_iff_get.mp (hs i c st hc hst hflag) p q hpq
  · intro s' hok
    obtain ⟨_, hvr, hschema, _, hstores⟩ := appendRow_ok_elim env s vals s' hok
    obtain ⟨hlen1, hlen2⟩ := validateRow_none_lengths env _ _ _ hvr
    intro i c st' hc hst' hflag
    rw [hschema] at hc
    rw [hstores] at hst'
    have hi : i < s.schema.columns.length := by
      by_contra hge
      rw [List.getElem?_eq_none (Nat.le_of_not_lt hge)] at hc
      cases hc
    have histores : i < s.stores.length := by rw [hlen1]; exact hi
    have hivals : i < vals.length := by rw [hlen2]; exact hi
    have hst : s.stores[i]? = some s.stores[i] := List.getElem?_eq_getElem histores
    have hv : vals[i]? = some vals[i] := List.getElem?_eq_getElem hivals
    have hcommit := commitRow_getElem? s.stores vals i s.stores[i] vals[i] hst hv
    rw [hcommit] at hst'
    have heq : st' = s.stores[i] ++ [vals[i]] := (Option.some_injective _ hst').symm
    subst heq
    have hvc := validateRow_none_col env _ _ _ hvr i c s.stores[i] vals[i] hc hst hv
    obtain ⟨_, hsort, _⟩ := validateCol_none_parts env c _ _ hvc
    exact pairwise_append_last (hs i c s.stores[i] hc hst hflag)
      (sortOk_sorted_elim c _ _ hflag hsort)
  · intro i c st v l hc hst hv hflag hlast hlt
    refine appendRow_error_of_col env s vals i c st v hc hst hv ?_
    unfold validateCol
    by_cases h1 : typeOk c.type v
    · rw [if_pos h1]
      have hsf : sortOk c st v = false := by
        unfold sortOk
        rw [hflag, hlast]
        exact hlt
      rw [hsf]
      simp
    · rw [if_neg h1]
      simp

/-- Concrete one-row state of the input-method clients table for the C2
witness: the sorted `ts` column holds the single value 5. -/
def imClients1 : TableState :=
  ⟨INPUTMETHOD_CLIENTS_TABLE, [[Value.vInt 5], [Value.vNull], [Value.vNull]], Phase.Open⟩

/-- A row whose `ts` value 3 is below the current last `ts` value 5. -/
def row3 : List Value := [Value.vInt 3, Value.vNull, Value.vNull]

theorem imClients1_sorted : tableSorted imClients1 := by
  intro i c st hc hst hflag
  match i with
  | 0 =>
      simp [imClients1, INPUTMETHOD_CLIENTS_TABLE] at hc hst
      subst hc; subst hst
      simp
  | 1 =>
      simp [imClients1, INPUTMETHOD_CLIENTS_TABLE] at hc
      subst hc
      simp [optU32RWCol] at hflag
  | 2 =>
      simp [imClients1, INPUTMETHOD_CLIENTS_TABLE] at hc
      subst hc
      simp [optU32RWPostCol] at hflag
  | (n + 3) =>
      simp [imClients1, INPUTMETHOD_CLIENTS_TABLE] at hc

/-- Witness for C2 at a concrete one-row table and out-of-order row. -/
theorem sorted_column_invariant_witness :
    tableSorted imClients1 ∧
    ((∀ (i : Nat) (c : Column) (st : List Value),
        imClients1.schema.columns[i]? = some c → imClients1.stores[i]? = some st →
        c.flags = ColumnFlag.SORTED →
        ∀ (p q : Fin st.length), (p : Nat) < (q : Nat) →
          valueLe (st.get p) (st.get q) = true) ∧
     (∀ s', appendRow envZero imClients1 row3 = Except.ok s' → tableSorted s') ∧
     (∀ (i : Nat) (c : Column) (st : List Value) (v : Value) (l : Value),
        imClients1.schema.columns[i]? = some c → imClients1.stores[i]? = some st →
        row3[i]? = some v → c.flags = ColumnFlag.SORTED →
        st.getLast? = some l → valueLe l v = false →
        ∃ e, appendRow envZero imClients1 row3 = Except.error e)) :=
  ⟨imClients1_sorted, sorted_column_invariant envZero imClients1 row3 imClients1_sorted⟩

theorem canWrite_read_eq_false (c : Column) (h : c.cpp_access = CppAccess.READ)
    (ph : Phase) : canWrite c ph = false := by
  obtain ⟨nm, ty, fl, ac, du⟩ := c
  simp only at h
  subst h
  cases du <;> rfl

/-- Claim C3: `CanWrite` equals the declared decision table: read-only
columns are never writable (so `Set` fails with `AccessDenied` in both
phases), read-and-low-perf-write columns with any-time duration are
writable in both phases, and with post-finalization duration writable
only once the table is `Closed`.  The concrete conjuncts evaluate the
table on the columns of `VIEWCAPTURE_INTERNED_DATA_TABLE` (read-only
`flat_key`, `iid`, `deinterned_value`; post-finalization
`base64_proto_id`) and exercise `Set` on the post-finalization column:
it fails with `AccessDenied` while the table is `Open` and succeeds once
the table is `Closed`. -/
theorem canWrite_decision_table :
    (∀ (c : Column) (ph : Phase), c.cpp_access = CppAccess.READ →
        canWrite c ph = false) ∧
    (∀ (c : Column) (ph : Phase),
        c.cpp_access = CppAccess.READ_AND_LOW_PERF_WRITE →
        c.cpp_access_duration = CppAccessDuration.ANY_TIME →
        canWrite c ph = true) ∧
    (∀ c : Column, c.cpp_access = CppAccess.READ_AND_LOW_PERF_WRITE →
        c.cpp_access_duration = CppAccessDuration.POST_FINALIZATION →
        canWrite c Phase.Open = false ∧ canWrite c Phase.Closed = true) ∧
    (∀ (s : TableState) (i r : Nat) (v : Value) (c : Column) (st : List Value),
        s.schema.columns[i]? = some c → s.stores[i]? = some st →
        canWrite c s.phase = false →
        setCell s i r v = Except.error TableError.accessDenied) ∧
    (VIEWCAPTURE_INTERNED_DATA_TABLE.columns.map (fun c => canWrite c Phase.Open)
      = [false, false, false, false]) ∧
    (VIEWCAPTURE_INTERNED_DATA_TABLE.columns.map (fun c => canWrite c Phase.Closed)
      = [true, false, false, false]) ∧
    (setCell
        ⟨VIEWCAPTURE_INTERNED_DATA_TABLE,
         [[Value.vUint 0], [Value.vStr "k"], [Value.vInt 1], [Value.vStr "w"]],
         Phase.Open⟩
        0 0 (Value.vUint 9) = Except.error TableError.accessDenied) ∧
    (setCell
        ⟨VIEWCAPTURE_INTERNED_DATA_TABLE,
         [[Value.vUint 0], [Value.vStr "k"], [Value.vInt 1], [Value.vStr "w"]],
         Phase.Closed⟩
        0 0 (Value.vUint 9)
      = Except.ok
          ⟨VIEWCAPTURE_INTERNED_DATA_TABLE,
           [[Value.vUint 9], [Value.vStr "k"], [Value.vInt 1], [Value.vStr "w"]],
           Phase.Closed⟩) := by
  refine ⟨?_, ?_, ?_, ?_, by decide, by decide, rfl, rfl⟩
  · intro c ph h
    exact canWrite_read_eq_false c h ph
  · intro c ph h1 h2
    obtain ⟨nm, ty, fl, ac, du⟩ := c
    simp only at h1 h2
    subst h1; subst h2
    rfl
  · intro c h1 h2
    obtain ⟨nm, ty, fl, ac, du⟩ := c
    simp only at h1 h2
    subst h1; subst h2
    exact ⟨rfl, rfl⟩
  · intro s i r v c st hc hst hcw
    unfold setCell
    rw [hc, hst]
    simp [hcw]

/-- Concrete one-row `Open` state of the interned-data table for the C3,
C5 and C6 witnesses. -/
def vcInterned1 : TableState :=
  ⟨VIEWCAPTURE_INTERNED_DATA_TABLE,
   [[Value.vUint 0], [Value.vStr "k"], [Value.vInt 1], [Value.vStr "w"]],
   Phase.Open⟩

/-- Witness for C3: in the open phase, `Set` on the read-only `flat_key`
column (index 1) of the concrete interned-data table fails with
`AccessDenied`. -/
theorem canWrite_decision_table_witness :
    setCell vcInterned1 1 0 (Value.vStr "x") = Except.error TableError.accessDenied :=
  canWrite_decision_table.2.2.2.1 vcInterned1 1 0 (Value.vStr "x")
    ⟨"flat_key", CppType.cppString, ColumnFlag.NONE, CppAccess.READ,
      CppAccessDuration.ANY_TIME⟩
    [Value.vStr "k"] (by decide) (by decide) (by decide)

/-- Claim C4: every non-null table-id value committed by `AppendRow` is a
row index strictly below the target table's row count at validation time
(`env` gives the target row counts), and `Resolve` on an index outside
the target's current bounds fails with `DanglingReference` instead of
returning a row handle; an `AppendRow` carrying an out-of-bounds
reference fails. -/
theorem id_reference_bounds (env : String → Nat) (s : TableState)
    (vals : List Value) :
    (∀ (s' : TableState) (i : Nat) (c : Column) (st : List Value) (v : Value)
        (tgt : String) (n : Nat),
        appendRow env s vals = Except.ok s' →
        s.schema.columns[i]? = some c → s.stores[i]? = some st →
        vals[i]? = some v → c.type = CppType.cppTableId tgt →
        v = Value.vRef n → n < env tgt) ∧
    (∀ (c : Column) (tgt : String) (idx : Nat),
        c.type = CppType.cppTableId tgt → env tgt ≤ idx →
        resolve env c idx = Except.error TableError.danglingReference) ∧
    (∀ (c : Column) (tgt : String) (idx : Nat),
        c.type = CppType.cppTableId tgt → idx < env tgt →
        resolve env c idx = Except.ok idx) ∧
    (∀ (i : Nat) (c : Column) (st : List Value) (tgt : String) (n : Nat),
        s.schema.columns[i]? = some c → s.stores[i]? = some st →
        vals[i]? = some (Value.vRef n) → c.type = CppType.cppTableId tgt →
        env tgt ≤ n → ∃ e, appendRow env s vals = Except.error e) := by
  refine ⟨?_, ?_, ?_, ?_⟩
  · intro s' i c st v tgt n hok hc hst hv htype hval
    obtain ⟨_, hvr, _, _, _⟩ := appendRow_ok_elim env s vals s' hok
    have hvc := validateRow_none_col env _ _ _ hvr i c st v hc hst hv
    obtain ⟨_, _, href⟩ := validateCol_none_parts env c st v hvc
    rw [htype, hval] at href
    unfold refOk at href
    exact of_decide_eq_true href
  · intro c tgt idx htype hge
    unfold resolve
    rw [htype]
    show (if idx < env tgt then Except.ok idx
      else Except.error TableError.danglingReference) = _
    rw [if_neg (Nat.not_lt.mpr hge)]
  · intro c tgt idx htype hlt
    unfold resolve
    rw [htype]
    show (if idx < env tgt then Except.ok idx
      else Except.error TableError.danglingReference) = _
    rw [if_pos hlt]
  · intro i c st tgt n hc hst hv htype hge
    refine appendRow_error_of_col env s vals i c st (Value.vRef n) hc hst hv ?_
    unfold validateCol
    by_cases h1 : typeOk c.type (Value.vRef n)
    · rw [if_pos h1]
      by_cases h2 : sortOk c st (Value.vRef n)
      · rw [if_pos h2]
        have href : refOk env c.type (Value.vRef n) = false := by
          rw [htype]
          unfold refOk
          exact decide_eq_false (Nat.not_lt.mpr hge)
        rw [href]
        simp
      · rw [if_neg h2]; simp
    · rw [if_neg h1]; simp

/-- The `snapshot_id` column of `SURFACE_FLINGER_LAYER_TABLE`. -/
def sfLayerSnapshotIdCol : Column :=
  ⟨"snapshot_id", CppType.cppTableId "surfaceflinger_layers_snapshot",
    ColumnFlag.NONE, CppAccess.READ, CppAccessDuration.ANY_TIME⟩

/-- Environment in which the snapshot table currently has three rows. -/
def envSnap3 : String → Nat := fun _ => 3

/-- Witness for C4: resolving row index 5 through `snapshot_id` while the
target snapshot table has 3 rows fails with `DanglingReference`. -/
theorem id_reference_bounds_witness :
    resolve envSnap3 sfLayerSnapshotIdCol 5
      = Except.error TableError.danglingReference :=
  (id_reference_bounds envSnap3
      ⟨SURFACE_FLINGER_LAYER_TABLE, [[], [], []], Phase.Open⟩ []).2.1
    sfLayerSnapshotIdCol "surfaceflinger_layers_snapshot" 5 (by decide) (by decide)

/-- Claim C5: `Finalize()` is idempotent -- a second call returns exactly
the same `Closed` state and, being a total function, cannot raise; after
the first call the lifecycle is `Closed`, and in the `Closed` phase the
decision table denies writes exactly to the columns without a
post-finalization write capability, i.e. the read-only columns, whose
`Set` therefore fails with `AccessDenied`. -/
theorem finalize_idempotent :
    (∀ s : TableState, finalize (finalize s) = finalize s) ∧
    (∀ s : TableState, (finalize s).phase = Phase.Closed) ∧
    (∀ c : Column, canWrite c Phase.Closed = false ↔ c.cpp_access = CppAccess.READ) ∧
    (∀ (s : TableState) (i r : Nat) (v : Value) (c : Column) (st : List Value),
        s.schema.columns[i]? = some c → s.stores[i]? = some st →
        c.cpp_access = CppAccess.READ →
        setCell (finalize s) i r v = Except.error TableError.accessDenied) := by
  refine ⟨fun s => rfl, fun s => rfl, ?_, ?_⟩
  · intro c
    obtain ⟨nm, ty, fl, ac, du⟩ := c
    cases ac <;> cases du <;> simp [canWrite]
  · intro s i r v c st hc hst hacc
    have hc' : (finalize s).schema.columns[i]? = some c := hc
    have hst' : (finalize s).stores[i]? = some st := hst
    unfold setCell
    rw [hc', hst']
    simp [canWrite_read_eq_false c hacc]

/-- Witness for C5: after finalizing the concrete interned-data table,
`Set` on the read-only `flat_key` column fails with `AccessDenied`. -/
theorem finalize_idempotent_witness :
    setCell (finalize vcInterned1) 1 0 (Value.vStr "x")
      = Except.error TableError.accessDenied :=
  finalize_idempotent.2.2.2 vcInterned1 1 0 (Value.vStr "x")
    ⟨"flat_key", CppType.cppString, ColumnFlag.NONE, CppAccess.READ,
      CppAccessDuration.ANY_TIME⟩
    [Value.vStr "k"] (by decide) (by decide) (by decide)

/-- Claim C6: a value whose runtime type disagrees with the column's
declared logical type makes the single-column `Append` fail with
`TypeMismatch`, makes `Set` fail with `TypeMismatch` (when access and
bounds are fine), and makes the whole `AppendRow` fail; each failing call
returns a bare error carrying no state, so the column store and the table
are exactly as if the call never happened. -/
theorem type_mismatch_atomic :
    (∀ (c : Column) (st : List Value) (v : Value), typeOk c.type v = false →
        storeAppend c st v = Except.error TableError.typeMismatch) ∧
    (∀ (s : TableState) (i r : Nat) (v : Value) (c : Column) (st : List Value),
        s.schema.columns[i]? = some c → s.stores[i]? = some st →
        canWrite c s.phase = true → r < st.length → typeOk c.type v = false →
        setCell s i r v = Except.error TableError.typeMismatch) ∧
    (∀ (env : String → Nat) (s : TableState) (vals : List Value) (i : Nat)
        (c : Column) (st : List Value) (v : Value),
        s.schema.columns[i]? = some c → s.stores[i]? = some st →
        vals[i]? = some v → typeOk c.type v = false →
        ∃ e, appendRow env s vals = Except.error e) := by
  refine ⟨?_, ?_, ?_⟩
  · intro c st v h
    unfold storeAppend
    rw [h]
    simp
  · intro s i r v c st hc hst hcw hr h
    unfold setCell
    rw [hc, hst]
    simp [hcw, hr, h]
  · intro env s vals i c st v hc hst hv h
    refine appendRow_error_of_col env s vals i c st v hc hst hv ?_
    unfold validateCol
    rw [h]
    simp

/-- Witness for C6: appending the integer 7 to the string column
`flat_key` fails with `TypeMismatch`. -/
theorem type_mismatch_atomic_witness :
    storeAppend
      ⟨"flat_key", CppType.cppString, ColumnFlag.NONE, CppAccess.READ,
        CppAccessDuration.ANY_TIME⟩
      [Value.vStr "k"] (Value.vInt 7) = Except.error TableError.typeMismatch :=
  type_mismatch_atomic.1
    ⟨"flat_key", CppType.cppString, ColumnFlag.NONE, CppAccess.READ,
      CppAccessDuration.ANY_TIME⟩
    [Value.vStr "k"] (Value.vInt 7) (by decide)

theorem appendRow_columns_only (env : String → Nat) (t1 t2 : TableSchema)
    (hcols : t1.columns = t2.columns) (sts : List (List Value)) (ph : Phase)
    (vals : List Value) :
    (appendRow env ⟨t1, sts, ph⟩ vals).map (fun s => (s.stores, s.phase))
      = (appendRow env ⟨t2, sts, ph⟩ vals).map (fun s => (s.stores, s.phase)) := by
  unfold appendRow
  dsimp only
  rw [hcols]
  by_cases hph : ph = Phase.Closed
  · rw [if_pos hph]
    rw [if_pos hph]
  · rw [if_neg hph]
    rw [if_neg hph]
    cases validateRow env t2.columns sts vals <;> rfl

/-- Claim C7: schema compilation of the full `ALL_TABLES` batch succeeds
-- column names are unique within every table, every table-id target is
present in the batch, every `SORTED` flag sits on a totally ordered
numeric type -- and the single empty-string documentation key of
`VIEWCAPTURE_VIEW_TABLE` neither fails validation nor affects storage:
`AppendRow` behaves identically (same stores, same phase, same errors)
under any choice of documentation keys, and validation also succeeds with
all documentation erased. -/
theorem schema_compilation_ok :
    validateSchema ALL_TABLES = true ∧
    "" ∈ VIEWCAPTURE_VIEW_TABLE.docKeys ∧
    (∀ (d : List String) (env : String → Nat) (sts : List (List Value))
        (ph : Phase) (vals : List Value),
        (appendRow env ⟨setDocs VIEWCAPTURE_VIEW_TABLE d, sts, ph⟩ vals).map
            (fun s => (s.stores, s.phase))
          = (appendRow env ⟨VIEWCAPTURE_VIEW_TABLE, sts, ph⟩ vals).map
            (fun s => (s.stores, s.phase))) ∧
    validateSchema (ALL_TABLES.map (fun t => setDocs t [])) = true := by
  refine ⟨by decide, by decide, ?_, by decide⟩
  intro d env sts ph vals
  exact appendRow_columns_only env (setDocs VIEWCAPTURE_VIEW_TABLE d)
    VIEWCAPTURE_VIEW_TABLE rfl sts ph vals

theorem noForwardRefsAux_sound :
    ∀ (ts : List TableSchema) (seen : List String),
      noForwardRefsAux seen ts = true →
      ∀ (i : Nat) (t : TableSchema), ts[i]? = some t →
        ∀ c ∈ t.columns, ∀ tgt : String, refTarget c.type = some tgt →
          tgt ∈ seen ∨
          ∃ (j : Nat) (t2 : TableSchema), j < i ∧ ts[j]? = some t2 ∧
            t2.sql_name = tgt := by
  intro ts
  induction ts with
  | nil =>
      intro seen _ i t ht
      simp at ht
  | cons t0 rest ih =>
      intro seen h i t ht c hc tgt htgt
      unfold noForwardRefsAux at h
      rw [Bool.and_eq_true] at h
      obtain ⟨h0, hrest⟩ := h
      cases i with
      | zero =>
          simp at ht
          subst ht
          left
          have hcol := List.all_eq_true.mp h0 c hc
          rw [htgt] at hcol
          simp at hcol
          exact hcol
      | succ i =>
          simp at ht
          have hres := ih (seen ++ [t0.sql_name]) hrest i t ht c hc tgt htgt
          rcases hres with hseen | ⟨j, t2, hj, hjt, hsql⟩
          · rw [List.mem_append] at hseen
            rcases hseen with hin | ht0
            · exact Or.inl hin
            · refine Or.inr ⟨0, t0, Nat.succ_pos i, by simp, ?_⟩
              simp at ht0
              exact ht0.symm
          · exact Or.inr ⟨j + 1, t2, Nat.succ_lt_succ hj, by simpa using hjt, hsql⟩

/-- Claim C8: in the declared schema no forward reference occurs -- every
table-id column of a table in the module targets a table defined strictly
earlier in the module's textual order -- and the targets occurring in the
batch are exactly the snapshot, transactions and viewcapture tables. -/
theorem no_forward_references :
    (∀ (i : Nat) (t : TableSchema), MODULE_TABLES[i]? = some t →
        ∀ c ∈ t.columns, ∀ tgt : String, c.type = CppType.cppTableId tgt →
          ∃ (j : Nat) (t2 : TableSchema), j < i ∧ MODULE_TABLES[j]? = some t2 ∧
            t2.sql_name = tgt) ∧
    refTargets MODULE_TABLES
      = [ "surfaceflinger_layers_snapshot", "surfaceflinger_transactions"
        , "__intrinsic_viewcapture" ] := by
  refine ⟨?_, by decide⟩
  intro i t ht c hc tgt htype
  have haux := noForwardRefsAux_sound MODULE_TABLES [] (by decide) i t ht c hc tgt
    (by rw [htype]; rfl)
  rcases haux with hseen | hfound
  · cases hseen
  · exact hfound

/-- Witness for C8 at the concrete table `SURFACE_FLINGER_LAYER_TABLE`
(index 4 of the module order), whose `snapshot_id` column references
`surfaceflinger_layers_snapshot` (defined at index 3). -/
theorem no_forward_references_witness :
    MODULE_TABLES[4]? = some SURFACE_FLINGER_LAYER_TABLE ∧
    sfLayerSnapshotIdCol ∈ SURFACE_FLINGER_LAYER_TABLE.columns ∧
    sfLayerSnapshotIdCol.type
      = CppType.cppTableId "surfaceflinger_layers_snapshot" ∧
    (∃ (j : Nat) (t2 : TableSchema), j < 4 ∧ MODULE_TABLES[j]? = some t2 ∧
        t2.sql_name = "surfaceflinger_layers_snapshot") :=
  ⟨by decide, by decide, by decide,
   no_forward_references.1 4 SURFACE_FLINGER_LAYER_TABLE (by decide)
     sfLayerSnapshotIdCol (by decide) "surfaceflinger_layers_snapshot" (by decide)⟩

/-- Claim C9: every `SORTED` column of the declared schema has the
non-optional numeric type `CppInt64`; in particular every sorted column
has a totally ordered (sortable) type and can never hold a null value. -/
theorem sorted_columns_int64 :
    (∀ t ∈ ALL_TABLES, ∀ c ∈ t.columns, c.flags = ColumnFlag.SORTED →
        c.type = CppType.cppInt64) ∧
    (∀ t ∈ ALL_TABLES, ∀ c ∈ t.columns, c.flags = ColumnFlag.SORTED →
        sortableType c.type = true ∧ typeOk c.type Value.vNull = false) := by
  constructor <;> decide

/-- Witness for C9 at the `ts` column of `INPUTMETHOD_CLIENTS_TABLE`. -/
theorem sorted_columns_int64_witness :
    (INPUTMETHOD_CLIENTS_TABLE ∈ ALL_TABLES ∧
     tsSortedCol "ts" ∈ INPUTMETHOD_CLIENTS_TABLE.columns ∧
     (tsSortedCol "ts").flags = ColumnFlag.SORTED) ∧
    (tsSortedCol "ts").type = CppType.cppInt64 :=
  ⟨⟨by decide, by decide, by decide⟩,
   sorted_columns_int64.1 INPUTMETHOD_CLIENTS_TABLE (by decide)
     (tsSortedCol "ts") (by decide) (by decide)⟩

/-- Claim C10: every column of the declared schema with post-finalization
access duration also declares read-and-low-perf-write access; no column
combines read-only access with post-finalization duration, so every
declared column falls into one of the three rows of the `CanWrite`
decision table. -/
theorem post_finalization_access :
    (∀ t ∈ ALL_TABLES, ∀ c ∈ t.columns,
        c.cpp_access_duration = CppAccessDuration.POST_FINALIZATION →
        c.cpp_access = CppAccess.READ_AND_LOW_PERF_WRITE) ∧
    (∀ t ∈ ALL_TABLES, ∀ c ∈ t.columns,
        ¬(c.cpp_access = CppAccess.READ ∧
          c.cpp_access_duration = CppAccessDuration.POST_FINALIZATION)) := by
  constructor <;> decide

/-- Witness for C10 at the `base64_proto_id` column of
`VIEWCAPTURE_INTERNED_DATA_TABLE`. -/
theorem post_finalization_access_witness :
    (VIEWCAPTURE_INTERNED_DATA_TABLE ∈ ALL_TABLES ∧
     (⟨"base64_proto_id", CppType.cppUint32, ColumnFlag.NONE,
        CppAccess.READ_AND_LOW_PERF_WRITE, CppAccessDuration.POST_FINALIZATION⟩ : Column)
       ∈ VIEWCAPTURE_INTERNED_DATA_TABLE.columns) ∧
    (⟨"base64_proto_id", CppType.cppUint32, ColumnFlag.NONE,
       CppAccess.READ_AND_LOW_PERF_WRITE, CppAccessDuration.POST_FINALIZATION⟩
        : Column).cpp_access = CppAccess.READ_AND_LOW_PERF_WRITE :=
  ⟨⟨by decide, by decide⟩,
   post_finalization_access.1 VIEWCAPTURE_INTERNED_DATA_TABLE (by decide)
     ⟨"base64_proto_id", CppType.cppUint32, ColumnFlag.NONE,
       CppAccess.READ_AND_LOW_PERF_WRITE, CppAccessDuration.POST_FINALIZATION⟩
     (by decide) (by decide)⟩

end WinscopeTables
